import Mathlib

/-!
Verification development for the Kalibr TypeScript SDK.

This file gives a shallow embedding, in Lean 4, of the parts of the SDK
needed to settle the specification claims:

* the cost calculator (`normalizeModelName`, `PRICING`, `calculateCost`
  from `src/kalibr.ts`),
* the span lifecycle (`SpanBuilder` setters, `StartedSpan.finish` from
  `src/kalibr.ts`),
* the router's candidate ordering, fallback loop and outcome reporting
  (`Router.completion`, `Router.report`, `Router.reportFailure` from
  `src/context.ts`),
* the trace capsule rolling window (`TraceCapsule.appendHop` from
  `src/capsule.ts`).

Modelling conventions:

* JavaScript strings are lists of characters (`Str`); `toLowerCase` is
  modelled on the ASCII range (the only range exercised by model
  identifiers), `String.prototype.includes` by `jsIncludes`.
* JavaScript numbers are exact rationals (`ℚ`); `Math.round` is
  `jsRound` (round half toward positive infinity); millisecond clock
  readings are integers (`ℤ`) supplied as explicit inputs.
* Code that throws is embedded with `Except`; network effects
  (span transmission, outcome submission) are recorded as explicit
  output lists, and the outcomes of external calls (provider dispatch,
  upstream acceptance of an outcome report) are inputs to the model.
-/

namespace KalibrSDK

/-- JavaScript strings, modelled as lists of characters. -/
abbrev Str := List Char

/-- Embed a Lean string literal as a `Str`. -/
def str (s : String) : Str := s.data

/-- ASCII lower-casing of a single character, as performed by
`String.prototype.toLowerCase` on the code points used by model
identifiers (code points 65-90 shift by 32, everything else is fixed). -/
def jsToLowerChar (c : Char) : Char :=
  if 65 ≤ c.toNat ∧ c.toNat ≤ 90 then Char.ofNat (c.toNat + 32) else c

/-- `String.prototype.toLowerCase`. -/
def jsToLower (s : Str) : Str := s.map jsToLowerChar

/-- `String.prototype.includes`: `jsIncludes s pat` is true when `pat`
occurs as a contiguous substring of `s`. -/
def jsIncludes : Str → Str → Bool
  | s, pat =>
    pat.isPrefixOf s ||
      match s with
      | [] => false
      | _ :: t => jsIncludes t pat

/-- The `Provider` union type of `src/kalibr.ts`
(`'openai' | 'anthropic' | 'google' | 'cohere' | 'custom'`). -/
inductive Provider
  | openai
  | anthropic
  | google
  | cohere
  | custom
  deriving DecidableEq

/-- The string value of a `Provider` member. -/
def providerName : Provider → Str
  | .openai => str "openai"
  | .anthropic => str "anthropic"
  | .google => str "google"
  | .cohere => str "cohere"
  | .custom => str "custom"

/-- The static pricing table `PRICING` of `src/kalibr.ts` (per-million
input/output token prices, keyed by provider then canonical model name).
Indexing `PRICING[provider] || {}` for a provider absent from the table
(`custom`) yields the empty record, here the empty list. -/
def PRICING : Provider → List (Str × ℚ × ℚ)
  | .openai =>
      [ (str "gpt-4", 30, 60)
      , (str "gpt-4-turbo", 10, 30)
      , (str "gpt-4o", 5/2, 10)
      , (str "gpt-3.5-turbo", 1/2, 3/2)
      , (str "gpt-4o-mini", 3/20, 3/5) ]
  | .anthropic =>
      [ (str "claude-3-opus", 15, 75)
      , (str "claude-3-sonnet", 3, 15)
      , (str "claude-3-haiku", 1/4, 5/4)
      , (str "claude-3.5-sonnet", 3, 15) ]
  | .google =>
      [ (str "gemini-pro", 5/4, 5)
      , (str "gemini-1.5-pro", 5/4, 5)
      , (str "gemini-1.5-flash", 3/40, 3/10) ]
  | .cohere =>
      [ (str "command", 1, 2)
      , (str "command-r", 1/2, 3/2)
      , (str "command-r-plus", 3, 15) ]
  | .custom => []

/-- `DEFAULT_PRICING` of `src/kalibr.ts`: the fallback per-million price
pair used for models missing from the table. -/
def DEFAULT_PRICING : ℚ × ℚ := (30, 60)

/-- The `openai` branch of `normalizeModelName`. -/
def normalizeOpenai (modelLower : Str) : Str :=
  if jsIncludes modelLower (str "gpt-4o-mini") then str "gpt-4o-mini"
  else if jsIncludes modelLower (str "gpt-4o") then str "gpt-4o"
  else if jsIncludes modelLower (str "gpt-4-turbo") then str "gpt-4-turbo"
  else if jsIncludes modelLower (str "gpt-4") then str "gpt-4"
  else if jsIncludes modelLower (str "gpt-3.5") then str "gpt-3.5-turbo"
  else modelLower

/-- The `anthropic` branch of `normalizeModelName`. -/
def normalizeAnthropic (modelLower : Str) : Str :=
  if jsIncludes modelLower (str "claude-3.5-sonnet")
      || jsIncludes modelLower (str "claude-3-5-sonnet") then str "claude-3.5-sonnet"
  else if jsIncludes modelLower (str "claude-3-opus") then str "claude-3-opus"
  else if jsIncludes modelLower (str "claude-3-sonnet") then str "claude-3-sonnet"
  else if jsIncludes modelLower (str "claude-3-haiku") then str "claude-3-haiku"
  else modelLower

/-- The `google` branch of `normalizeModelName`. -/
def normalizeGoogle (modelLower : Str) : Str :=
  if jsIncludes modelLower (str "gemini-1.5-flash") then str "gemini-1.5-flash"
  else if jsIncludes modelLower (str "gemini-1.5-pro") then str "gemini-1.5-pro"
  else if jsIncludes modelLower (str "gemini-pro") then str "gemini-pro"
  else modelLower

/-- The `cohere` branch of `normalizeModelName`. -/
def normalizeCohere (modelLower : Str) : Str :=
  if jsIncludes modelLower (str "command-r-plus") then str "command-r-plus"
  else if jsIncludes modelLower (str "command-r") then str "command-r"
  else if jsIncludes modelLower (str "command") then str "command"
  else modelLower

/-- `normalizeModelName` of `src/kalibr.ts`: lower-case the model name,
then map it to a canonical pricing bucket by ordered substring matches
within the given provider's block; with no match (and for providers
without a block) return the lower-cased name unchanged. -/
def normalizeModelName (provider : Provider) (modelName : Str) : Str :=
  let modelLower := jsToLower modelName
  match provider with
  | .openai => normalizeOpenai modelLower
  | .anthropic => normalizeAnthropic modelLower
  | .google => normalizeGoogle modelLower
  | .cohere => normalizeCohere modelLower
  | .custom => modelLower

/-- `Math.round`: round half toward positive infinity. -/
def jsRound (x : ℚ) : ℤ := ⌊x + 1/2⌋

/-- The price pair `PRICING[provider][normalizedModel] || DEFAULT_PRICING`
resolved by `calculateCost`. -/
def resolvedPricing (provider : Provider) (modelId : Str) : ℚ × ℚ :=
  ((PRICING provider).lookup (normalizeModelName provider modelId)).getD DEFAULT_PRICING

/-- `calculateCost` of `src/kalibr.ts`. -/
def calculateCost (provider : Provider) (modelId : Str)
    (inputTokens outputTokens : ℚ) : ℚ :=
  let pricing := resolvedPricing provider modelId
  let inputCost := inputTokens / 1000000 * pricing.1
  let outputCost := outputTokens / 1000000 * pricing.2
  (jsRound ((inputCost + outputCost) * 1000000) : ℚ) / 1000000

lemma toNat_ofNat_shift (n : ℕ) (h1 : 65 ≤ n) (h2 : n ≤ 90) :
    (Char.ofNat (n + 32)).toNat = n + 32 := by
  interval_cases n <;> decide

lemma jsToLowerChar_idem (c : Char) : jsToLowerChar (jsToLowerChar c) = jsToLowerChar c := by
  unfold jsToLowerChar
  by_cases h : 65 ≤ c.toNat ∧ c.toNat ≤ 90
  · rw [if_pos h, if_neg]
    rw [toNat_ofNat_shift c.toNat h.1 h.2]
    omega
  · rw [if_neg h, if_neg h]

lemma jsToLower_idem (s : Str) : jsToLower (jsToLower s) = jsToLower s := by
  induction s with
  | nil => rfl
  | cons c t ih =>
    simp only [jsToLower, List.map_cons] at ih ⊢
    rw [jsToLowerChar_idem]
    simpa [jsToLower] using ih

lemma normalizeOpenai_idem (s : Str) (hs : jsToLower s = s) :
    normalizeOpenai (jsToLower (normalizeOpenai s)) = normalizeOpenai s := by
  cases h1 : jsIncludes s (str "gpt-4o-mini") with
  | true => simp [normalizeOpenai, h1]; decide
  | false =>
  cases h2 : jsIncludes s (str "gpt-4o") with
  | true => simp [normalizeOpenai, h1, h2]; decide
  | false =>
  cases h3 : jsIncludes s (str "gpt-4-turbo") with
  | true => simp [normalizeOpenai, h1, h2, h3]; decide
  | false =>
  cases h4 : jsIncludes s (str "gpt-4") with
  | true => simp [normalizeOpenai, h1, h2, h3, h4]; decide
  | false =>
  cases h5 : jsIncludes s (str "gpt-3.5") with
  | true => simp [normalizeOpenai, h1, h2, h3, h4, h5]; decide
  | false =>
    simp [normalizeOpenai, h1, h2, h3, h4, h5, hs]

lemma normalizeAnthropic_idem (s : Str) (hs : jsToLower s = s) :
    normalizeAnthropic (jsToLower (normalizeAnthropic s)) = normalizeAnthropic s := by
  cases h1 : jsIncludes s (str "claude-3.5-sonnet") || jsIncludes s (str "claude-3-5-sonnet") with
  | true => simp [normalizeAnthropic, h1]; decide
  | false =>
  cases h2 : jsIncludes s (str "claude-3-opus") with
  | true => simp [normalizeAnthropic, h1, h2]; decide
  | false =>
  cases h3 : jsIncludes s (str "claude-3-sonnet") with
  | true => simp [normalizeAnthropic, h1, h2, h3]; decide
  | false =>
  cases h4 : jsIncludes s (str "claude-3-haiku") with
  | true => simp [normalizeAnthropic, h1, h2, h3, h4]; decide
  | false =>
    simp [normalizeAnthropic, h1, h2, h3, h4, hs]

lemma normalizeGoogle_idem (s : Str) (hs : jsToLower s = s) :
    normalizeGoogle (jsToLower (normalizeGoogle s)) = normalizeGoogle s := by
  cases h1 : jsIncludes s (str "gemini-1.5-flash") with
  | true => simp [normalizeGoogle, h1]; decide
  | false =>
  cases h2 : jsIncludes s (str "gemini-1.5-pro") with
  | true => simp [normalizeGoogle, h1, h2]; decide
  | false =>
  cases h3 : jsIncludes s (str "gemini-pro") with
  | true => simp [normalizeGoogle, h1, h2, h3]; decide
  | false =>
    simp [normalizeGoogle, h1, h2, h3, hs]

lemma normalizeCohere_idem (s : Str) (hs : jsToLower s = s) :
    normalizeCohere (jsToLower (normalizeCohere s)) = normalizeCohere s := by
  cases h1 : jsIncludes s (str "command-r-plus") with
  | true => simp [normalizeCohere, h1]; decide
  | false =>
  cases h2 : jsIncludes s (str "command-r") with
  | true => simp [normalizeCohere, h1, h2]; decide
  | false =>
  cases h3 : jsIncludes s (str "command") with
  | true => simp [normalizeCohere, h1, h2, h3]; decide
  | false =>
    simp [normalizeCohere, h1, h2, h3, hs]

lemma normalizeModelName_idem (p : Provider) (m : Str) :
    normalizeModelName p (normalizeModelName p m) = normalizeModelName p m := by
  have hs : jsToLower (jsToLower m) = jsToLower m := jsToLower_idem m
  cases p
  case openai => exact normalizeOpenai_idem (jsToLower m) hs
  case anthropic => exact normalizeAnthropic_idem (jsToLower m) hs
  case google => exact normalizeGoogle_idem (jsToLower m) hs
  case cohere => exact normalizeCohere_idem (jsToLower m) hs
  case custom => exact hs

lemma lookup_pricing_nonneg (l : List (Str × ℚ × ℚ))
    (hl : ∀ e ∈ l, 0 ≤ e.2.1 ∧ 0 ≤ e.2.2) (k : Str) :
    0 ≤ ((l.lookup k).getD DEFAULT_PRICING).1 ∧
      0 ≤ ((l.lookup k).getD DEFAULT_PRICING).2 := by
  induction l with
  | nil =>
    constructor <;> norm_num [List.lookup, DEFAULT_PRICING]
  | cons e t ih =>
    obtain ⟨ek, ev⟩ := e
    cases hbeq : k == ek with
    | true =>
      simp only [List.lookup, hbeq, Option.getD_some]
      exact hl ⟨ek, ev⟩ (List.mem_cons_self _ _)
    | false =>
      simp only [List.lookup, hbeq]
      exact ih fun e he => hl e (List.mem_cons_of_mem _ he)

lemma resolvedPricing_nonneg (p : Provider) (m : Str) :
    0 ≤ (resolvedPricing p m).1 ∧ 0 ≤ (resolvedPricing p m).2 := by
  rw [resolvedPricing]
  apply lookup_pricing_nonneg
  intro e he
  cases p <;> simp only [PRICING] at he <;> first
    | exact absurd he (List.not_mem_nil e)
    | (fin_cases he <;> constructor <;> norm_num)

/-- Claim C4: for every provider, model id and token counts
`inputTokens ≥ 0` and `outputTokens ≥ 0`, `calculateCost` is deterministic
(it is a total Lean function of its arguments), non-negative, and equals
`round(((inputTokens/1e6)*priceIn + (outputTokens/1e6)*priceOut), 6)` where
`(priceIn, priceOut)` is the resolved pricing-table pair; a normalized
model absent from the table (in particular any model of a provider with no
table, such as `custom`) resolves to the default pair (30.00, 60.00) per
million tokens. Totality of the Lean function is the embedding of "the
function never fails". -/
theorem claim_C4_calculateCost (p : Provider) (m : Str) (i o : ℚ)
    (hi : 0 ≤ i) (ho : 0 ≤ o) :
    0 ≤ calculateCost p m i o ∧
    calculateCost p m i o =
      (jsRound ((i / 1000000 * (resolvedPricing p m).1 +
        o / 1000000 * (resolvedPricing p m).2) * 1000000) : ℚ) / 1000000 ∧
    ((PRICING p).lookup (normalizeModelName p m) = none →
      resolvedPricing p m = (30, 60)) := by
  obtain ⟨hp1, hp2⟩ := resolvedPricing_nonneg p m
  refine ⟨?_, rfl, ?_⟩
  · have h1 : 0 ≤ i / 1000000 * (resolvedPricing p m).1 :=
      mul_nonneg (div_nonneg hi (by norm_num)) hp1
    have h2 : 0 ≤ o / 1000000 * (resolvedPricing p m).2 :=
      mul_nonneg (div_nonneg ho (by norm_num)) hp2
    have hround : (0:ℤ) ≤ jsRound ((i / 1000000 * (resolvedPricing p m).1 +
        o / 1000000 * (resolvedPricing p m).2) * 1000000) := by
      rw [jsRound]
      refine Int.le_floor.mpr ?_
      push_cast
      nlinarith
    calc (0:ℚ) ≤ (jsRound ((i / 1000000 * (resolvedPricing p m).1 +
          o / 1000000 * (resolvedPricing p m).2) * 1000000) : ℚ) / 1000000 := by
          refine div_nonneg ?_ (by norm_num)
          exact_mod_cast hround
      _ = calculateCost p m i o := rfl
  · intro h
    rw [resolvedPricing, h]
    rfl

/-- Claim C4 witness at a concrete input: the anthropic opus model with
500k input and 200k output tokens. -/
theorem claim_C4_witness :
    0 ≤ calculateCost .anthropic (str "claude-3-opus-20240229") 500000 200000 ∧
    calculateCost .anthropic (str "claude-3-opus-20240229") 500000 200000 =
      (jsRound ((500000 / 1000000 *
        (resolvedPricing .anthropic (str "claude-3-opus-20240229")).1 +
        200000 / 1000000 *
        (resolvedPricing .anthropic (str "claude-3-opus-20240229")).2) * 1000000) : ℚ)
        / 1000000 ∧
    ((PRICING .anthropic).lookup
        (normalizeModelName .anthropic (str "claude-3-opus-20240229")) = none →
      resolvedPricing .anthropic (str "claude-3-opus-20240229") = (30, 60)) :=
  claim_C4_calculateCost .anthropic (str "claude-3-opus-20240229") 500000 200000
    (by norm_num) (by norm_num)

/-- Claim C5: model-name normalization is idempotent for every provider and
model string; it prefers the most specific substring match (every model
containing the pattern `gpt-4o-mini` — which also contains its prefixes
`gpt-4o` and `gpt-4` — normalizes to `gpt-4o-mini`, the longer pattern);
consequently the dated snapshot `gpt-4o-2024-05-13` is priced exactly like
`gpt-4o`, namely 12.5 USD at one million input and one million output
tokens. -/
theorem claim_C5_normalization :
    (∀ p m, normalizeModelName p (normalizeModelName p m) = normalizeModelName p m) ∧
    (∀ m, jsIncludes (jsToLower m) (str "gpt-4o-mini") = true →
        normalizeModelName .openai m = str "gpt-4o-mini") ∧
    calculateCost .openai (str "gpt-4o-2024-05-13") 1000000 1000000 =
      calculateCost .openai (str "gpt-4o") 1000000 1000000 ∧
    calculateCost .openai (str "gpt-4o") 1000000 1000000 = 25/2 := by
  have he1 : calculateCost .openai (str "gpt-4o") 1000000 1000000 = 25/2 := by
    have h : resolvedPricing .openai (str "gpt-4o") = (5/2, 10) := by
      rw [resolvedPricing,
        show normalizeModelName .openai (str "gpt-4o") = str "gpt-4o" from by decide]
      simp [PRICING, List.lookup, str]
    rw [calculateCost, h]
    norm_num [jsRound]
  have he2 : calculateCost .openai (str "gpt-4o-2024-05-13") 1000000 1000000 = 25/2 := by
    have h : resolvedPricing .openai (str "gpt-4o-2024-05-13") = (5/2, 10) := by
      rw [resolvedPricing,
        show normalizeModelName .openai (str "gpt-4o-2024-05-13") = str "gpt-4o" from by decide]
      simp [PRICING, List.lookup, str]
    rw [calculateCost, h]
    norm_num [jsRound]
  refine ⟨normalizeModelName_idem, ?_, by rw [he1, he2], he1⟩
  intro m hm
  simp [normalizeModelName, normalizeOpenai, hm]

/-- Claim C5 witness: the most-specific-match component applied at a
concrete mixed-case dated model name. -/
theorem claim_C5_witness :
    normalizeModelName .openai (str "GPT-4o-Mini-2024-07-18") = str "gpt-4o-mini" :=
  claim_C5_normalization.2.1 (str "GPT-4o-Mini-2024-07-18") (by decide)

/-- A hop of `src/capsule.ts` (`CapsuleHop`). All fields are optional in
the source; the open-ended custom-field index signature is not modelled
(no claim touches it). -/
structure CapsuleHop where
  provider : Option Str := none
  operation : Option Str := none
  model : Option Str := none
  duration_ms : Option ℚ := none
  status : Option Str := none
  cost_usd : Option ℚ := none
  input_tokens : Option ℚ := none
  output_tokens : Option ℚ := none
  error_type : Option Str := none
  agent_name : Option Str := none
  hop_index : Option ℕ := none
  deriving DecidableEq

/-- The mutable state of a `TraceCapsule` (`src/capsule.ts`) touched by
`appendHop`: the rolling hop window and the two running aggregates.
Identity and bookkeeping fields (`traceId`, `timestamp`, `tenantId`,
`workflowId`, `metadata`, context tokens) are not read or combined by
`appendHop` (it only refreshes the wall-clock timestamp) and are outside
the claims, so they are not carried in the state. -/
structure TraceCapsuleState where
  lastNHops : List CapsuleHop := []
  aggregateCostUsd : ℚ := 0
  aggregateLatencyMs : ℚ := 0
  deriving DecidableEq

/-- `TraceCapsule.MAX_HOPS`. -/
def MAX_HOPS : ℕ := 5

/-- `TraceCapsule.appendHop` of `src/capsule.ts`: index the hop with the
current window length, push it, drop the oldest entry when the window
exceeds `MAX_HOPS`, and add the hop's cost and duration (absent values
count as zero) into the running aggregates. -/
def appendHop (c : TraceCapsuleState) (hop : CapsuleHop) : TraceCapsuleState :=
  let indexedHop := { hop with hop_index := some c.lastNHops.length }
  let pushed := c.lastNHops ++ [indexedHop]
  { lastNHops := if MAX_HOPS < pushed.length then pushed.drop 1 else pushed
    aggregateCostUsd := c.aggregateCostUsd + hop.cost_usd.getD 0
    aggregateLatencyMs := c.aggregateLatencyMs + hop.duration_ms.getD 0 }

/-- A capsule as produced by the `TraceCapsule` constructor with no
options: empty window, zero aggregates. -/
def freshCapsule : TraceCapsuleState := {}

/-- A sequence of `appendHop` calls. -/
def appendHops (c : TraceCapsuleState) (hs : List CapsuleHop) : TraceCapsuleState :=
  hs.foldl appendHop c

/-- A hop with its (auto-assigned) index erased, for comparing window
entries with the hops originally passed to `appendHop`. -/
def hopContent (h : CapsuleHop) : CapsuleHop := { h with hop_index := none }

lemma appendHops_append (c : TraceCapsuleState) (hs : List CapsuleHop) (h : CapsuleHop) :
    appendHops c (hs ++ [h]) = appendHop (appendHops c hs) h := by
  simp [appendHops, List.foldl_append]

lemma hopContent_indexed (h : CapsuleHop) (n : ℕ) :
    hopContent { h with hop_index := some n } = hopContent h := rfl

lemma appendHop_lastNHops_keep (c : TraceCapsuleState) (hop : CapsuleHop)
    (h : c.lastNHops.length < MAX_HOPS) :
    (appendHop c hop).lastNHops =
      c.lastNHops ++ [{ hop with hop_index := some c.lastNHops.length }] := by
  simp only [appendHop]
  rw [if_neg]
  simp only [List.length_append, List.length_cons, List.length_nil]
  omega

lemma appendHop_lastNHops_evict (c : TraceCapsuleState) (hop : CapsuleHop)
    (h : MAX_HOPS ≤ c.lastNHops.length) :
    (appendHop c hop).lastNHops =
      (c.lastNHops ++ [{ hop with hop_index := some c.lastNHops.length }]).drop 1 := by
  simp only [appendHop]
  rw [if_pos]
  simp only [List.length_append, List.length_cons, List.length_nil]
  omega

lemma appendHop_aggCost (c : TraceCapsuleState) (hop : CapsuleHop) :
    (appendHop c hop).aggregateCostUsd = c.aggregateCostUsd + hop.cost_usd.getD 0 := rfl

lemma appendHop_aggLat (c : TraceCapsuleState) (hop : CapsuleHop) :
    (appendHop c hop).aggregateLatencyMs = c.aggregateLatencyMs + hop.duration_ms.getD 0 := rfl

/-- Behaviour of a whole `appendHop` sequence on a fresh capsule: the
window length is `min n MAX_HOPS`, the window holds the most recent
`MAX_HOPS` appended hops in order, and the aggregates are the sums of all
appended hops' costs and durations. -/
lemma appendHops_fresh (hs : List CapsuleHop) :
    (appendHops freshCapsule hs).lastNHops.length = min hs.length MAX_HOPS ∧
    (appendHops freshCapsule hs).lastNHops.map hopContent =
      (hs.map hopContent).drop (hs.length - MAX_HOPS) ∧
    (appendHops freshCapsule hs).aggregateCostUsd =
      (hs.map (fun h => h.cost_usd.getD 0)).sum ∧
    (appendHops freshCapsule hs).aggregateLatencyMs =
      (hs.map (fun h => h.duration_ms.getD 0)).sum := by
  induction hs using List.reverseRecOn with
  | nil => refine ⟨rfl, rfl, rfl, rfl⟩
  | append_singleton t a ih =>
    obtain ⟨hlen, hcontent, hcost, hlat⟩ := ih
    rw [appendHops_append]
    have hMH : MAX_HOPS = 5 := rfl
    have hagg1 : (appendHop (appendHops freshCapsule t) a).aggregateCostUsd =
        ((t ++ [a]).map (fun h => h.cost_usd.getD 0)).sum := by
      rw [appendHop_aggCost, hcost]
      simp
    have hagg2 : (appendHop (appendHops freshCapsule t) a).aggregateLatencyMs =
        ((t ++ [a]).map (fun h => h.duration_ms.getD 0)).sum := by
      rw [appendHop_aggLat, hlat]
      simp
    by_cases h5 : t.length < MAX_HOPS
    · have hc : (appendHops freshCapsule t).lastNHops.length < MAX_HOPS := by
        rw [hlen]; omega
      rw [appendHop_lastNHops_keep _ _ hc]
      refine ⟨?_, ?_, hagg1, hagg2⟩
      · simp only [List.length_append, List.length_cons, List.length_nil, hlen]
        omega
      · simp only [List.map_append, List.map_cons, List.map_nil, hopContent_indexed,
          hcontent, List.length_append, List.length_cons, List.length_nil]
        have h1 : t.length - MAX_HOPS = 0 := by omega
        have h2 : t.length + (0 + 1) - MAX_HOPS = 0 := by omega
        rw [h1, h2]
        simp
    · have hc : MAX_HOPS ≤ (appendHops freshCapsule t).lastNHops.length := by
        rw [hlen]; omega
      rw [appendHop_lastNHops_evict _ _ hc]
      refine ⟨?_, ?_, hagg1, hagg2⟩
      · simp only [List.length_drop, List.length_append, List.length_cons,
          List.length_nil, hlen]
        omega
      · rw [List.drop_append_of_le_length (by omega : 1 ≤
          (appendHops freshCapsule t).lastNHops.length)]
        simp only [List.map_append, List.map_cons, List.map_nil, hopContent_indexed,
          List.map_drop, hcontent, List.length_append, List.length_cons, List.length_nil]
        rw [List.drop_drop]
        have h1 : t.length - MAX_HOPS + 1 = t.length + (0 + 1) - MAX_HOPS := by omega
        have h2 : t.length + (0 + 1) - MAX_HOPS ≤ (t.map hopContent).length := by
          simp only [List.length_map]; omega
        rw [h1, List.drop_append_of_le_length h2]

/-- Claim C8: starting from a freshly created capsule, after any sequence
of `appendHop` calls the hop list never exceeds `MAX_HOPS = 5` entries
(and the window bound is preserved by `appendHop` from any state
satisfying it); eviction is FIFO — the retained entries are exactly the
most recent `MAX_HOPS` appended hops in their original relative order
(hop contents compared with the auto-assigned index erased); and the two
aggregates equal the sums of `cost_usd` and `duration_ms` (absent values
as zero) over all hops ever appended, including evicted ones. -/
theorem claim_C8_appendHop :
    (∀ hs : List CapsuleHop,
      (appendHops freshCapsule hs).lastNHops.length ≤ MAX_HOPS ∧
      (appendHops freshCapsule hs).lastNHops.map hopContent =
        (hs.map hopContent).drop (hs.length - MAX_HOPS) ∧
      (appendHops freshCapsule hs).aggregateCostUsd =
        (hs.map (fun h => h.cost_usd.getD 0)).sum ∧
      (appendHops freshCapsule hs).aggregateLatencyMs =
        (hs.map (fun h => h.duration_ms.getD 0)).sum) ∧
    (∀ (c : TraceCapsuleState) (h : CapsuleHop), c.lastNHops.length ≤ MAX_HOPS →
      (appendHop c h).lastNHops.length ≤ MAX_HOPS) := by
  have hMH : MAX_HOPS = 5 := rfl
  constructor
  · intro hs
    obtain ⟨h1, h2, h3, h4⟩ := appendHops_fresh hs
    exact ⟨by rw [h1]; omega, h2, h3, h4⟩
  · intro c h hc
    by_cases hlt : c.lastNHops.length < MAX_HOPS
    · rw [appendHop_lastNHops_keep _ _ hlt]
      simp only [List.length_append, List.length_cons, List.length_nil]
      omega
    · rw [appendHop_lastNHops_evict _ _ (by omega)]
      simp only [List.length_drop, List.length_append, List.length_cons, List.length_nil]
      omega

/-- Claim C8 witness: the window-bound preservation component applied to a
fresh capsule and a default hop. -/
theorem claim_C8_witness :
    (appendHop freshCapsule {}).lastNHops.length ≤ MAX_HOPS :=
  claim_C8_appendHop.2 freshCapsule {} (by decide)

/-- Claim C9 counterexample: appending seven (identical, default) hops to
a fresh capsule, the retained window carries hop indices
`[2, 3, 4, 5, 5]` — the seventh appended hop was assigned `hop_index` 5
(the retained-window length at call time), not the sequential index 6
required by the claim, so indices are not strictly increasing once
eviction has begun. -/
theorem claim_C9_counterexample :
    ((appendHops freshCapsule (List.replicate 7 {})).lastNHops.map
      (fun h => h.hop_index) = [some 2, some 3, some 4, some 5, some 5]) ∧
    ¬ ((appendHops freshCapsule (List.replicate 7 {})).lastNHops.map
      (fun h => h.hop_index) = [some 2, some 3, some 4, some 5, some 6]) := by
  constructor <;> decide

/-- Claim C9 (amended): `appendHop` assigns each appended hop a
`hop_index` equal to the length of the retained window at call time: for
a capsule starting empty, the k-th appended hop (1-based) is assigned
`hop_index` `min (k-1) MAX_HOPS`, i.e. the sequential index `k-1` for the
first six appends and the constant 5 thereafter; indices are strictly
increasing only until eviction begins. -/
theorem claim_C9_amended (hs : List CapsuleHop) (hop : CapsuleHop) :
    (appendHops freshCapsule (hs ++ [hop])).lastNHops.getLast? =
      some { hop with hop_index := some (min hs.length MAX_HOPS) } := by
  have hMH : MAX_HOPS = 5 := rfl
  rw [appendHops_append]
  have hlen := (appendHops_fresh hs).1
  by_cases h5 : (appendHops freshCapsule hs).lastNHops.length < MAX_HOPS
  · rw [appendHop_lastNHops_keep _ _ h5, hlen]
    simp
  · rw [appendHop_lastNHops_evict _ _ (by omega), hlen]
    rw [List.drop_append_of_le_length
      (by omega : 1 ≤ (appendHops freshCapsule hs).lastNHops.length)]
    simp

/-- A normalized path of `src/context.ts` (`PathConfig`). The `tools`
field (`string | string[] | null` in the source, joined to one id string
by `getToolId`) and the `params` record never participate in candidate
ordering or dispatch selection; they are carried as opaque optional
strings so that two configured paths with the same model can differ. -/
structure PathConfig where
  model : Str
  tools : Option Str := none
  params : Option Str := none
  deriving DecidableEq

/-- The ordered candidate list built by `Router.completion`
(`src/context.ts` lines 869-884): the first configured path whose model
equals the selected model (when one exists), followed by every configured
path whose model differs from the selected model, in configuration
order. -/
def candidatePaths (paths : List PathConfig) (selectedModel : Str) : List PathConfig :=
  (match paths.find? (fun p => p.model == selectedModel) with
    | some p => [p]
    | none => []) ++ paths.filter (fun p => p.model != selectedModel)

/-- Remove the first path whose model equals `m`, keeping everything
else. Helper for the spec-side description of the candidate list. -/
def removeFirstMatch : List PathConfig → Str → List PathConfig
  | [], _ => []
  | p :: t, m => if p.model == m then t else p :: removeFirstMatch t m

/-- Modelled from the spec: the candidate list as the specification words
it — "the decided/forced path first (if it matches a configured path),
then all remaining configured paths in original order, skipping the one
already placed first". Used only to compare the spec's description with
`candidatePaths` as implemented. -/
def specCandidatePaths (paths : List PathConfig) (selectedModel : Str) : List PathConfig :=
  match paths.find? (fun p => p.model == selectedModel) with
  | some p => p :: removeFirstMatch paths selectedModel
  | none => paths

lemma countP_le_one_of_pairwise (paths : List PathConfig) (m : Str)
    (hdist : paths.Pairwise (fun p q => p.model ≠ q.model)) :
    paths.countP (fun p => p.model == m) ≤ 1 := by
  induction paths with
  | nil => simp
  | cons p t ih =>
    rcases List.pairwise_cons.mp hdist with ⟨hp, ht⟩
    rw [List.countP_cons]
    by_cases hpm : (p.model == m) = true
    · have h0 : t.countP (fun q => q.model == m) = 0 := by
        rw [List.countP_eq_zero]
        intro q hq hq2
        rw [beq_iff_eq] at hpm hq2
        exact hp q hq (hpm.trans hq2.symm)
      rw [h0]
      simp [hpm]
    · simp only [hpm]
      simpa using ih ht

lemma filter_eq_removeFirstMatch (paths : List PathConfig) (m : Str)
    (hcount : paths.countP (fun p => p.model == m) ≤ 1) :
    paths.filter (fun p => p.model != m) = removeFirstMatch paths m := by
  induction paths with
  | nil => rfl
  | cons p t ih =>
    rw [List.countP_cons] at hcount
    by_cases hpm : (p.model == m) = true
    · have h0 : t.countP (fun q => q.model == m) = 0 := by
        simp only [hpm, if_pos] at hcount
        omega
      have hfil : t.filter (fun q => q.model != m) = t := by
        rw [List.filter_eq_self]
        intro q hq
        have := List.countP_eq_zero.mp h0 q hq
        simp only [bne]
        simpa using this
      have hfalse : (p.model != m) = false := by simp [bne, hpm]
      simp only [removeFirstMatch, if_pos hpm, List.filter_cons, hfalse]
      simpa using hfil
    · have hne : (p.model != m) = true := by simp [bne, hpm]
      have hc : t.countP (fun q => q.model == m) ≤ 1 := by
        simp only [hpm] at hcount
        omega
      simp only [removeFirstMatch, if_neg hpm, List.filter_cons, hne, if_pos]
      rw [ih hc]

lemma candidatePaths_eq_spec (paths : List PathConfig) (m : Str)
    (hdist : paths.Pairwise (fun p q => p.model ≠ q.model)) :
    candidatePaths paths m = specCandidatePaths paths m := by
  have hcount := countP_le_one_of_pairwise paths m hdist
  unfold candidatePaths specCandidatePaths
  cases hfind : paths.find? (fun p => p.model == m) with
  | none =>
    have hall := List.find?_eq_none.mp hfind
    rw [List.filter_eq_self.mpr]
    · simp
    · intro a ha
      have := hall a ha
      simp only [bne]
      simpa using this
  | some q =>
    rw [filter_eq_removeFirstMatch paths m hcount]
    simp

/-- The two-path router of the claim's concrete example. -/
def examplePaths : List PathConfig :=
  [{ model := str "gpt-4o" }, { model := str "claude-3-sonnet" }]

/-- A path list in which two configured paths share a model but differ in
their tool configuration. -/
def dupModelPaths : List PathConfig :=
  [ { model := str "gpt-4o", tools := some (str "code_analyzer") }
  , { model := str "gpt-4o", tools := some (str "linter") }
  , { model := str "claude-3-sonnet" } ]

/-- Claim C1 counterexample: with two configured paths sharing the
decided model `gpt-4o` (differing in tools), the fallback loop attempts
only 2 candidates — the first `gpt-4o` path and the `claude-3-sonnet`
path — whereas the claim's ordering ("all remaining configured paths in
their original configuration order, skipping the one already placed
first") has 3 candidates, keeping the second `gpt-4o` path. The code
skips every remaining path whose model equals the decided model, not only
the one already placed first. -/
theorem claim_C1_counterexample :
    candidatePaths dupModelPaths (str "gpt-4o") ≠
      specCandidatePaths dupModelPaths (str "gpt-4o") ∧
    (candidatePaths dupModelPaths (str "gpt-4o")).length = 2 ∧
    (specCandidatePaths dupModelPaths (str "gpt-4o")).length = 3 := by
  refine ⟨by decide, by decide, by decide⟩

/-- Claim C1 (amended): for every Router whose configured paths have
pairwise distinct models (as in the claim's example), the ordered
candidate list attempted by the fallback loop is exactly as the claim
states: the decided (or forced) model's configured path first when its
model matches some configured path, then all remaining configured paths
in original configuration order, skipping the one already placed first.
(When two configured paths share the decided model, the loop instead
skips every such duplicate — see the counterexample.) In particular, for
paths `['gpt-4o','claude-3-sonnet']` and a decision naming
`claude-3-sonnet`, the attempt order is `[claude-3-sonnet, gpt-4o]`. -/
theorem claim_C1_candidate_order :
    (∀ (paths : List PathConfig) (selectedModel : Str),
      paths.Pairwise (fun p q => p.model ≠ q.model) →
      candidatePaths paths selectedModel = specCandidatePaths paths selectedModel) ∧
    candidatePaths examplePaths (str "claude-3-sonnet") =
      [{ model := str "claude-3-sonnet" }, { model := str "gpt-4o" }] := by
  exact ⟨candidatePaths_eq_spec, by decide⟩

/-- Claim C1 witness: the amended ordering equivalence applied to the
concrete two-path router. -/
theorem claim_C1_witness :
    candidatePaths examplePaths (str "claude-3-sonnet") =
      specCandidatePaths examplePaths (str "claude-3-sonnet") :=
  claim_C1_candidate_order.1 examplePaths (str "claude-3-sonnet") (by decide)

/-- The slice of a unified `ChatCompletion` response read by the router's
auto-evaluation: the generated text content of each choice. (Identifiers,
timestamps and token usage are never read back by `completion`.) -/
structure ChatResp where
  choices : List Str
  deriving DecidableEq

/-- `response.choices[0]?.message?.content || ''`: the primary text
content a configured `successWhen` predicate is evaluated against. -/
def respOutput (r : ChatResp) : Str := r.choices.headD []

/-- One successful upstream outcome submission (`reportOutcome`): either
the per-candidate failure report of `Router.reportFailure`, or the
success/failure report of `Router.report`. -/
inductive Submission where
  | failureReport (reason : Str)
  | outcomeReport (success : Bool)
  deriving DecidableEq

/-- `Router.reportFailure` (`src/context.ts` lines 970-982), acting on
the per-call flag and the list of successful submissions so far: a no-op
when the outcome was already reported (the trace id, always assigned at
the start of `completion`, is present); otherwise it submits a failure
outcome — `reportOk` says whether the upstream call succeeds; on success
the flag is set, and an upstream error is swallowed leaving the flag
unset. -/
def reportFailureStep (reported : Bool) (subs : List Submission) (reportOk : Bool)
    (e : Str) : Bool × List Submission :=
  if reported then (reported, subs)
  else if reportOk then (true, subs ++ [Submission.failureReport e])
  else (reported, subs)

/-- Result of the fallback loop of `Router.completion`: the response of
the first successful candidate (if any), the outcome-reported flag, the
successful submissions performed, and the last provider error seen. -/
structure LoopResult where
  response : Option ChatResp
  outcomeReported : Bool
  submissions : List Submission
  lastError : Option Str
  deriving DecidableEq

/-- The candidate loop of `Router.completion` (`src/context.ts` lines
887-915): try each candidate in order; `dispatch` is the outcome of
provider detection plus the provider call for a candidate (both throw
into the same catch). On success stop; on failure record the error as
last error, best-effort report the failure, and continue. -/
def runCandidates (dispatch : PathConfig → Except Str ChatResp) (reportOk : Bool) :
    List PathConfig → Bool → List Submission → Option Str → LoopResult
  | [], reported, subs, lastErr => ⟨none, reported, subs, lastErr⟩
  | c :: rest, reported, subs, lastErr =>
    match dispatch c with
    | .ok r => ⟨some r, reported, subs, lastErr⟩
    | .error e =>
      let step := reportFailureStep reported subs reportOk e
      runCandidates dispatch reportOk rest step.1 step.2 (some e)

/-- `Router.completion` after model selection (`src/context.ts` lines
869-930): build the candidate list, run the fallback loop with a fresh
outcome flag, throw the last error when no candidate succeeded, and
otherwise auto-evaluate the configured `successWhen` predicate and report
that outcome unless one was already reported during the loop
(`Router.report` is itself guarded by the same flag). `selectedModel` is
the model chosen in lines 855-867 (forced model, decision-service answer,
or the first path's model when the decision service fails); `reportOk`
says whether upstream outcome submissions succeed. -/
def completionRun (paths : List PathConfig) (selectedModel : Str)
    (dispatch : PathConfig → Except Str ChatResp) (reportOk : Bool)
    (successWhen : Option (Str → Bool)) : Except Str ChatResp × List Submission :=
  let result := runCandidates dispatch reportOk (candidatePaths paths selectedModel)
    false [] none
  match result.response with
  | none => (.error (result.lastError.getD (str "All paths failed")), result.submissions)
  | some r =>
    match successWhen with
    | some f =>
      if result.outcomeReported then (.ok r, result.submissions)
      else if reportOk then
        (.ok r, result.submissions ++ [Submission.outcomeReport (f (respOutput r))])
      else (.ok r, result.submissions)
    | none => (.ok r, result.submissions)

lemma runCandidates_all_fail (dispatch : PathConfig → Except Str ChatResp)
    (reportOk : Bool) (clast : PathConfig) (elast : Str)
    (hlast : dispatch clast = .error elast) :
    ∀ (cs : List PathConfig) (reported : Bool) (subs : List Submission)
      (lastErr : Option Str),
      (∀ c ∈ cs, ∃ e, dispatch c = .error e) →
      (runCandidates dispatch reportOk (cs ++ [clast]) reported subs lastErr).response
          = none ∧
      (runCandidates dispatch reportOk (cs ++ [clast]) reported subs lastErr).lastError
          = some elast := by
  intro cs
  induction cs with
  | nil =>
    intro reported subs lastErr _h
    simp [runCandidates, hlast]
  | cons c t ih =>
    intro reported subs lastErr hall
    obtain ⟨e, he⟩ := hall c (by simp)
    simp only [List.cons_append, runCandidates, he]
    exact ih _ _ _ (fun c hc => hall c (by simp [hc]))

/-- Claim C2: when the provider dispatch of every candidate path fails,
`Router.completion` raises the last encountered provider error (one
representative exception) to the caller and never returns a response.
The candidate list is non-empty for every Router (the constructor rejects
an empty path list), so a last candidate always exists. -/
theorem claim_C2_all_fail_raises_last :
    (∀ (paths : List PathConfig) (selectedModel : Str),
      paths ≠ [] → candidatePaths paths selectedModel ≠ []) ∧
    (∀ (paths : List PathConfig) (selectedModel : Str)
      (dispatch : PathConfig → Except Str ChatResp) (reportOk : Bool)
      (successWhen : Option (Str → Bool)) (cs : List PathConfig)
      (clast : PathConfig) (elast : Str),
      candidatePaths paths selectedModel = cs ++ [clast] →
      (∀ c ∈ cs, ∃ e, dispatch c = .error e) →
      dispatch clast = .error elast →
      (completionRun paths selectedModel dispatch reportOk successWhen).1 =
        .error elast) := by
  constructor
  · intro paths m hne
    unfold candidatePaths
    cases hfind : paths.find? (fun p => p.model == m) with
    | some q => simp
    | none =>
      have hall := List.find?_eq_none.mp hfind
      rw [List.filter_eq_self.mpr]
      · simpa using hne
      · intro a ha
        have := hall a ha
        simp only [bne]
        simpa using this
  · intro paths selectedModel dispatch reportOk successWhen cs clast elast hcands hall hlast
    have h := runCandidates_all_fail dispatch reportOk clast elast hlast cs
      false [] none hall
    rw [← hcands] at h
    simp only [completionRun, h.1, h.2, Option.getD_some]

/-- Claim C2 witness: a two-path router in which both dispatches fail;
the raised error is the second (last) candidate's error. -/
theorem claim_C2_witness :
    (completionRun examplePaths (str "claude-3-sonnet")
      (fun p => .error (str "boom-" ++ p.model)) true none).1 =
      .error (str "boom-" ++ str "gpt-4o") :=
  claim_C2_all_fail_raises_last.2 examplePaths (str "claude-3-sonnet")
    (fun p => .error (str "boom-" ++ p.model)) true none
    [{ model := str "claude-3-sonnet" }] { model := str "gpt-4o" }
    (str "boom-" ++ str "gpt-4o") (by decide)
    (fun c _hc => ⟨str "boom-" ++ c.model, rfl⟩) rfl

/-- Claim C10: within a single `completion` call, once a candidate's
failure has been successfully reported upstream (setting the per-call
outcome flag), a later candidate's success in the same call never
triggers the `successWhen`-based outcome report: the whole call performs
exactly the one failure submission, and the eventual success goes
unreported. -/
theorem claim_C10_fallback_success_unreported
    (paths : List PathConfig) (selectedModel : Str)
    (dispatch : PathConfig → Except Str ChatResp) (f : Str → Bool)
    (c1 c2 : PathConfig) (rest : List PathConfig) (e : Str) (r : ChatResp)
    (hcands : candidatePaths paths selectedModel = c1 :: c2 :: rest)
    (h1 : dispatch c1 = .error e) (h2 : dispatch c2 = .ok r) :
    completionRun paths selectedModel dispatch true (some f) =
      (.ok r, [Submission.failureReport e]) := by
  simp only [completionRun, hcands, runCandidates, h1, h2, reportFailureStep]
  simp

/-- Claim C10 witness: the primary `claude-3-sonnet` path fails (failure
reported upstream), the `gpt-4o` fallback succeeds; the success is never
reported. -/
theorem claim_C10_witness :
    completionRun examplePaths (str "claude-3-sonnet")
      (fun p => if p.model == str "claude-3-sonnet"
        then .error (str "overloaded") else .ok ⟨[str "hello"]⟩)
      true (some (fun _ => true)) =
      (.ok ⟨[str "hello"]⟩, [Submission.failureReport (str "overloaded")]) :=
  claim_C10_fallback_success_unreported examplePaths (str "claude-3-sonnet") _
    (fun _ => true) { model := str "claude-3-sonnet" } { model := str "gpt-4o" } []
    (str "overloaded") ⟨[str "hello"]⟩ (by decide) rfl rfl

/-- The slice of Router state read and written by `Router.report`
(`src/context.ts` lines 939-965): the trace id of the last completion and
the per-completion outcome-reported flag. `Router.completion`
unconditionally assigns a trace id and clears the flag before
dispatching, so right after a completion the state is
`⟨some traceId, reportedDuringCall⟩`. -/
structure RouterReportState where
  lastTraceId : Option Str
  outcomeReported : Bool
  deriving DecidableEq

/-- `Router.report`: a no-op when the outcome of the current completion
was already reported; otherwise resolve a trace id
(`this.lastTraceId || getTraceId()` — `ambientTraceId` is the ambient
context's trace id) and, absent one, do nothing; else submit the outcome
upstream (`upstreamOk` says whether `reportOutcome` succeeds), setting
the flag only on success. The returned Boolean records whether an
outcome submission was performed. -/
def routerReport (s : RouterReportState) (ambientTraceId : Option Str)
    (upstreamOk : Bool) : RouterReportState × Bool :=
  if s.outcomeReported then (s, false)
  else
    match s.lastTraceId.or ambientTraceId with
    | none => (s, false)
    | some _ =>
      if upstreamOk then ({ s with outcomeReported := true }, true)
      else (s, false)

/-- Claim C3: `Router.report` is idempotent per completion. Once the flag
records a successful submission, any further call performs no submission
and leaves the state unchanged; with no known trace id (no prior
completion's id and no ambient one) a call performs no submission; and
starting from the state left by a completion (trace id assigned, flag
clear), calling `report` twice performs exactly one outcome submission —
the first call submits, the second is a no-op. -/
theorem claim_C3_report_idempotent :
    (∀ (s : RouterReportState) (amb : Option Str) (up : Bool),
      s.outcomeReported = true → routerReport s amb up = (s, false)) ∧
    (∀ (s : RouterReportState) (up : Bool),
      s.lastTraceId = none → routerReport s none up = (s, false)) ∧
    (∀ (t : Str) (amb1 amb2 : Option Str) (up2 : Bool),
      (routerReport ⟨some t, false⟩ amb1 true).2 = true ∧
      (routerReport (routerReport ⟨some t, false⟩ amb1 true).1 amb2 up2).2 = false) := by
  refine ⟨?_, ?_, ?_⟩
  · intro s amb up h
    simp [routerReport, h]
  · intro s up h
    by_cases hr : s.outcomeReported = true
    · simp [routerReport, hr]
    · simp only [Bool.not_eq_true] at hr
      simp [routerReport, hr, h, Option.or]
  · intro t amb1 amb2 up2
    constructor
    · simp [routerReport, Option.or]
    · simp [routerReport, Option.or]

/-- Claim C3 witness: a report call on a router whose current completion
already has a reported outcome performs no submission. -/
theorem claim_C3_witness :
    routerReport ⟨some (str "trace-1"), true⟩ none true =
      (⟨some (str "trace-1"), true⟩, false) :=
  claim_C3_report_idempotent.1 ⟨some (str "trace-1"), true⟩ none true rfl

/-- A metadata record (`Record<string, unknown>`), modelled as an
association list with the values kept opaque as strings. Only key
identity matters to the code under verification (the shallow spread
merge in `finish`). -/
abbrev Meta := List (Str × Str)

/-- The JavaScript object spread `{ ...a, ...b }` on metadata records:
keys of `b` override keys of `a`. -/
def jsObjectMerge (a b : Meta) : Meta :=
  a.filter (fun kv => !(b.any (fun kv2 => kv2.1 == kv.1))) ++ b

/-- The `Status` union type (`'success' | 'error' | 'timeout'`). -/
inductive Status
  | success
  | error
  | timeout
  deriving DecidableEq

/-- JavaScript falsiness of an optional string field: `undefined`/`null`
and the empty string are falsy. -/
def jsFalsy : Option Str → Bool
  | none => true
  | some s => s.isEmpty

/-- The mutable `PartialSpan` accumulated by `SpanBuilder`
(`src/kalibr.ts`): every field optional, absent until a setter runs.
(`schema_version` is the constant `'1.0'` and carries no information.) -/
structure PartialSpan where
  trace_id : Option Str := none
  span_id : Option Str := none
  parent_span_id : Option Str := none
  tenant_id : Option Str := none
  workflow_id : Option Str := none
  sandbox_id : Option Str := none
  runtime_env : Option Str := none
  provider : Option Provider := none
  model_id : Option Str := none
  model_name : Option Str := none
  operation : Option Str := none
  endpoint : Option Str := none
  environment : Option Str := none
  service : Option Str := none
  user_id : Option Str := none
  request_id : Option Str := none
  metadata : Option Meta := none
  data_class : Option Str := none
  vendor : Option Str := none
  deriving DecidableEq

/-- `FinishOptions` of `src/kalibr.ts`. -/
structure FinishOptions where
  inputTokens : ℚ
  outputTokens : ℚ
  status : Option Status := none
  errorType : Option Str := none
  errorMessage : Option Str := none
  stackTrace : Option Str := none
  costUsd : Option ℚ := none
  metadata : Option Meta := none
  autoSend : Option Bool := none
  deriving DecidableEq

/-- A completed `KalibrSpan` as built by `StartedSpan.finish`
(`src/kalibr.ts`). Fields the source assigns with `?? null` are
`Option`; fields it always assigns a string/number are plain. -/
structure KalibrSpan where
  schema_version : Str
  trace_id : Str
  span_id : Str
  parent_span_id : Option Str
  tenant_id : Str
  workflow_id : Option Str
  sandbox_id : Option Str
  runtime_env : Option Str
  provider : Provider
  model_id : Str
  model_name : Str
  operation : Str
  endpoint : Option Str
  duration_ms : ℤ
  latency_ms : ℤ
  input_tokens : ℚ
  output_tokens : ℚ
  total_tokens : ℚ
  cost_usd : ℚ
  total_cost_usd : ℚ
  status : Status
  error_type : Option Str
  error_message : Option Str
  stack_trace : Option Str
  timestamp : Str
  ts_start : Str
  ts_end : Str
  environment : Option Str
  service : Option Str
  user_id : Option Str
  request_id : Option Str
  metadata : Option Meta
  data_class : Option Str
  vendor : Str
  deriving DecidableEq

/-- `StartedSpan.finish` (`src/kalibr.ts` lines 769-843). The clock
readings (`Date.now()` at start and finish) and the two ISO timestamps
are explicit inputs; `hasClient` says whether a transport client is
attached. The result is the completed span together with the list of
spans transmitted (`[completeSpan]` when auto-send is enabled and a
client exists, per lines 838-840); a validation failure is the thrown
error message and transmits nothing. -/
def finish (span : PartialSpan) (options : FinishOptions)
    (startTime endTime : ℤ) (startTimestamp endTimestamp : Str)
    (hasClient : Bool) : Except Str (KalibrSpan × List KalibrSpan) :=
  let durationMs := endTime - startTime
  match span.provider with
  | none => .error (str "SpanBuilder: provider is required")
  | some provider =>
    if jsFalsy span.model_id then
      .error (str "SpanBuilder: model_id is required (use setModel())")
    else if jsFalsy span.operation then
      .error (str "SpanBuilder: operation is required")
    else if jsFalsy span.tenant_id then
      .error (str "SpanBuilder: tenant_id is required")
    else
      let costUsd := options.costUsd.getD
        (calculateCost provider (span.model_id.getD []) options.inputTokens
          options.outputTokens)
      let metadata : Option Meta :=
        match span.metadata, options.metadata with
        | none, none => none
        | sm, om => some (jsObjectMerge (sm.getD []) (om.getD []))
      let completeSpan : KalibrSpan :=
        { schema_version := str "1.0"
          trace_id := span.trace_id.getD []
          span_id := span.span_id.getD []
          parent_span_id := span.parent_span_id
          tenant_id := span.tenant_id.getD []
          workflow_id := span.workflow_id
          sandbox_id := span.sandbox_id
          runtime_env := span.runtime_env
          provider := provider
          model_id := span.model_id.getD []
          model_name := span.model_name.getD (span.model_id.getD [])
          operation := span.operation.getD []
          endpoint := span.endpoint
          duration_ms := durationMs
          latency_ms := durationMs
          input_tokens := options.inputTokens
          output_tokens := options.outputTokens
          total_tokens := options.inputTokens + options.outputTokens
          cost_usd := costUsd
          total_cost_usd := costUsd
          status := options.status.getD .success
          error_type := options.errorType
          error_message := options.errorMessage
          stack_trace := options.stackTrace
          timestamp := endTimestamp
          ts_start := startTimestamp
          ts_end := endTimestamp
          environment := span.environment
          service := span.service
          user_id := span.user_id
          request_id := span.request_id
          metadata := metadata
          data_class := span.data_class
          vendor := span.vendor.getD (providerName provider) }
      let sends := if (options.autoSend != some false) && hasClient then [completeSpan] else []
      .ok (completeSpan, sends)

/-- One fluent `SpanBuilder` setter call (`src/kalibr.ts` lines
513-654), with the value it was called with. -/
inductive BuilderOp where
  | setTraceId (v : Str)
  | setSpanId (v : Str)
  | setParentSpanId (v : Option Str)
  | setTenantId (v : Str)
  | setWorkflowId (v : Str)
  | setSandboxId (v : Str)
  | setRuntimeEnv (v : Str)
  | setProvider (v : Provider)
  | setModel (v : Str)
  | setModelName (v : Str)
  | setOperation (v : Str)
  | setEndpoint (v : Str)
  | setEnvironment (v : Str)
  | setService (v : Str)
  | setUserId (v : Str)
  | setRequestId (v : Str)
  | setMetadata (v : Meta)
  | setDataClass (v : Str)
  deriving DecidableEq

/-- Effect of one setter on the partial span. `setProvider` also writes
the legacy `vendor` field; `setModel` defaults `model_name` to the model
id; everything else writes its own field. -/
def applyOp (s : PartialSpan) : BuilderOp → PartialSpan
  | .setTraceId v => { s with trace_id := some v }
  | .setSpanId v => { s with span_id := some v }
  | .setParentSpanId v => { s with parent_span_id := v }
  | .setTenantId v => { s with tenant_id := some v }
  | .setWorkflowId v => { s with workflow_id := some v }
  | .setSandboxId v => { s with sandbox_id := some v }
  | .setRuntimeEnv v => { s with runtime_env := some v }
  | .setProvider v => { s with provider := some v, vendor := some (providerName v) }
  | .setModel v => { s with model_id := some v, model_name := some v }
  | .setModelName v => { s with model_name := some v }
  | .setOperation v => { s with operation := some v }
  | .setEndpoint v => { s with endpoint := some v }
  | .setEnvironment v => { s with environment := some v }
  | .setService v => { s with service := some v }
  | .setUserId v => { s with user_id := some v }
  | .setRequestId v => { s with request_id := some v }
  | .setMetadata v => { s with metadata := some v }
  | .setDataClass v => { s with data_class := some v }

/-- The partial span accumulated by a fresh `SpanBuilder` after a
sequence of setter calls. -/
def applyOps (ops : List BuilderOp) : PartialSpan :=
  ops.foldl applyOp {}

/-- The client-provided defaults consulted by `SpanBuilder.start`. -/
structure ClientDefaults where
  tenantId : Str
  environment : Option Str := none
  service : Option Str := none
  deriving DecidableEq

/-- `SpanBuilder.start` (`src/kalibr.ts` lines 668-702) as it affects the
partial span: generate trace/span ids when unset (the generated values
are inputs here) and inherit tenant/environment/service defaults from the
client configuration where not already set. The source performs these
five conditional writes in sequence; each condition reads only the field
it writes, so the sequence equals this simultaneous update. -/
def startSpan (s : PartialSpan) (genTraceId genSpanId : Str)
    (client : Option ClientDefaults) : PartialSpan :=
  { s with
    trace_id := if jsFalsy s.trace_id then some genTraceId else s.trace_id
    span_id := if jsFalsy s.span_id then some genSpanId else s.span_id
    tenant_id := match client with
      | none => s.tenant_id
      | some c => if jsFalsy s.tenant_id then some c.tenantId else s.tenant_id
    environment := match client with
      | none => s.environment
      | some c => if jsFalsy s.environment && !(jsFalsy c.environment) then
          c.environment else s.environment
    service := match client with
      | none => s.service
      | some c => if jsFalsy s.service && !(jsFalsy c.service) then
          c.service else s.service }

lemma applyOp_vendor_inv (s : PartialSpan) (op : BuilderOp)
    (h : s.vendor = s.provider.map providerName) :
    (applyOp s op).vendor = (applyOp s op).provider.map providerName := by
  cases op <;> simp [applyOp, h]

lemma foldl_vendor_inv :
    ∀ (ops : List BuilderOp) (s : PartialSpan),
      s.vendor = s.provider.map providerName →
      (ops.foldl applyOp s).vendor = (ops.foldl applyOp s).provider.map providerName := by
  intro ops
  induction ops with
  | nil => intro s h; exact h
  | cons op t ih =>
    intro s h
    exact ih (applyOp s op) (applyOp_vendor_inv s op h)

/-- Every partial span reachable through `SpanBuilder` setters keeps the
legacy `vendor` field in lockstep with `provider`: `setProvider` is the
only setter writing either field and it writes both. -/
lemma applyOps_vendor_inv (ops : List BuilderOp) :
    (applyOps ops).vendor = (applyOps ops).provider.map providerName :=
  foldl_vendor_inv ops {} rfl

lemma startSpan_vendor (s : PartialSpan) (genT genS : Str)
    (client : Option ClientDefaults) :
    (startSpan s genT genS client).vendor = s.vendor := rfl

lemma startSpan_provider (s : PartialSpan) (genT genS : Str)
    (client : Option ClientDefaults) :
    (startSpan s genT genS client).provider = s.provider := rfl

/-- Claim C6: for every started span missing any of `provider`,
`model_id`, `operation` or `tenant_id`, `finish` throws a validation
error naming the first missing field in the order provider, model_id,
operation, tenant_id — each field independently triggering its own
error — and, the result being an error, no finished span is produced and
nothing is transmitted (the span/send payload exists only in the `ok`
case). -/
theorem claim_C6_finish_validation :
    (∀ (span : PartialSpan) (options : FinishOptions) (startTime endTime : ℤ)
        (sts ets : Str) (hasClient : Bool),
      span.provider = none →
      finish span options startTime endTime sts ets hasClient =
        .error (str "SpanBuilder: provider is required")) ∧
    (∀ (span : PartialSpan) (options : FinishOptions) (startTime endTime : ℤ)
        (sts ets : Str) (hasClient : Bool) (pr : Provider),
      span.provider = some pr → span.model_id = none →
      finish span options startTime endTime sts ets hasClient =
        .error (str "SpanBuilder: model_id is required (use setModel())")) ∧
    (∀ (span : PartialSpan) (options : FinishOptions) (startTime endTime : ℤ)
        (sts ets : Str) (hasClient : Bool) (pr : Provider),
      span.provider = some pr → jsFalsy span.model_id = false → span.operation = none →
      finish span options startTime endTime sts ets hasClient =
        .error (str "SpanBuilder: operation is required")) ∧
    (∀ (span : PartialSpan) (options : FinishOptions) (startTime endTime : ℤ)
        (sts ets : Str) (hasClient : Bool) (pr : Provider),
      span.provider = some pr → jsFalsy span.model_id = false →
      jsFalsy span.operation = false → span.tenant_id = none →
      finish span options startTime endTime sts ets hasClient =
        .error (str "SpanBuilder: tenant_id is required")) := by
  refine ⟨?_, ?_, ?_, ?_⟩
  · intro span options startTime endTime sts ets hasClient h
    simp [finish, h]
  · intro span options startTime endTime sts ets hasClient pr hprov hmod
    have hmodF : jsFalsy span.model_id = true := by rw [hmod]; rfl
    simp [finish, hprov, hmodF]
  · intro span options startTime endTime sts ets hasClient pr hprov hmod hop
    have hopF : jsFalsy span.operation = true := by rw [hop]; rfl
    simp [finish, hprov, hmod, hopF]
  · intro span options startTime endTime sts ets hasClient pr hprov hmod hop hten
    have htenF : jsFalsy span.tenant_id = true := by rw [hten]; rfl
    simp [finish, hprov, hmod, hop, htenF]

/-- Finish options used by the claim C6 witness. -/
def c6Options : FinishOptions := { inputTokens := 100, outputTokens := 50 }

/-- A partial span with a provider but no model. -/
def c6SpanNoModel : PartialSpan := { provider := some Provider.openai }

/-- A partial span with provider and model but no operation. -/
def c6SpanNoOperation : PartialSpan :=
  { provider := some Provider.openai
    model_id := some (str "gpt-4o") }

/-- A partial span with provider, model and operation but no tenant. -/
def c6SpanNoTenant : PartialSpan :=
  { provider := some Provider.openai
    model_id := some (str "gpt-4o")
    operation := some (str "chat_completion") }

/-- Claim C6 witness: each validation error at a concrete partial
span. -/
theorem claim_C6_witness :
    finish {} c6Options 0 5 (str "a") (str "b") false =
      .error (str "SpanBuilder: provider is required") ∧
    finish c6SpanNoModel c6Options 0 5 (str "a") (str "b") false =
      .error (str "SpanBuilder: model_id is required (use setModel())") ∧
    finish c6SpanNoOperation c6Options 0 5 (str "a") (str "b") false =
      .error (str "SpanBuilder: operation is required") ∧
    finish c6SpanNoTenant c6Options 0 5 (str "a") (str "b") false =
      .error (str "SpanBuilder: tenant_id is required") :=
  ⟨claim_C6_finish_validation.1 {} c6Options 0 5 (str "a") (str "b") false rfl,
   claim_C6_finish_validation.2.1 _ c6Options 0 5 (str "a") (str "b") false .openai rfl rfl,
   claim_C6_finish_validation.2.2.1 _ c6Options 0 5 (str "a") (str "b") false .openai
     rfl rfl rfl,
   claim_C6_finish_validation.2.2.2 _ c6Options 0 5 (str "a") (str "b") false .openai
     rfl rfl rfl rfl⟩

/-- Claim C7: every span returned by `finish` for a builder-constructed
`StartedSpan` (any sequence of setter calls, then `start`, then `finish`)
satisfies `total_tokens = input_tokens + output_tokens`; has
`duration_ms ≥ 0` whenever the finish-time clock reading is at least the
start-time one (`Date.now()` is taken as non-decreasing); carries a
definite `cost_usd` (the override or the calculated cost — presence is
structural: the field is total); and the legacy mirrors agree:
`latency_ms = duration_ms`, `total_cost_usd = cost_usd`, and `vendor`
equals the provider (the builder writes `vendor` only alongside
`provider`). -/
theorem claim_C7_finished_span_invariants
    (ops : List BuilderOp) (genT genS : Str) (client : Option ClientDefaults)
    (options : FinishOptions) (startTime endTime : ℤ) (sts ets : Str)
    (hasClient : Bool) (s : KalibrSpan) (sends : List KalibrSpan)
    (hclock : startTime ≤ endTime)
    (hfin : finish (startSpan (applyOps ops) genT genS client) options
      startTime endTime sts ets hasClient = .ok (s, sends)) :
    s.total_tokens = s.input_tokens + s.output_tokens ∧
    0 ≤ s.duration_ms ∧
    s.latency_ms = s.duration_ms ∧
    s.total_cost_usd = s.cost_usd ∧
    s.cost_usd = options.costUsd.getD
      (calculateCost s.provider s.model_id s.input_tokens s.output_tokens) ∧
    s.vendor = providerName s.provider := by
  set p := startSpan (applyOps ops) genT genS client with hp_def
  have hinv : p.vendor = p.provider.map providerName := by
    rw [hp_def, startSpan_vendor, startSpan_provider]
    exact applyOps_vendor_inv ops
  simp only [finish] at hfin
  cases hp : p.provider with
  | none =>
    rw [hp] at hfin
    simp at hfin
  | some pr =>
    rw [hp] at hfin
    by_cases h1 : jsFalsy p.model_id = true
    · simp [h1] at hfin
    · by_cases h2 : jsFalsy p.operation = true
      · simp [h1, h2] at hfin
      · by_cases h3 : jsFalsy p.tenant_id = true
        · simp [h1, h2, h3] at hfin
        · simp only [h1, h2, h3, Bool.false_eq_true, if_false, if_neg,
            Except.ok.injEq, Prod.mk.injEq] at hfin
          obtain ⟨hs, hsends⟩ := hfin
          subst hs
          refine ⟨rfl, ?_, rfl, rfl, rfl, ?_⟩
          · show (0:ℤ) ≤ endTime - startTime
            omega
          · show p.vendor.getD (providerName pr) = providerName pr
            rw [hinv, hp]
            rfl

/-- The builder calls of the claim C7 witness. -/
def c7ExampleOps : List BuilderOp :=
  [ .setProvider .openai, .setModel (str "gpt-4o"),
    .setOperation (str "chat_completion"), .setTenantId (str "tenant-1") ]

/-- The finish options of the claim C7 witness (cost overridden, so the
cost field is the override). -/
def c7ExampleOptions : FinishOptions :=
  { inputTokens := 100, outputTokens := 50, costUsd := some 1 }

/-- The span the claim C7 witness's finish call produces. -/
def c7ExampleSpan : KalibrSpan :=
  { schema_version := str "1.0"
    trace_id := str "trace-0"
    span_id := str "span-0"
    parent_span_id := none
    tenant_id := str "tenant-1"
    workflow_id := none
    sandbox_id := none
    runtime_env := none
    provider := .openai
    model_id := str "gpt-4o"
    model_name := str "gpt-4o"
    operation := str "chat_completion"
    endpoint := none
    duration_ms := 5 - 0
    latency_ms := 5 - 0
    input_tokens := 100
    output_tokens := 50
    total_tokens := 100 + 50
    cost_usd := 1
    total_cost_usd := 1
    status := .success
    error_type := none
    error_message := none
    stack_trace := none
    timestamp := str "ts-end"
    ts_start := str "ts-start"
    ts_end := str "ts-end"
    environment := none
    service := none
    user_id := none
    request_id := none
    metadata := none
    data_class := none
    vendor := str "openai" }

/-- Claim C7 witness: the invariants at a concrete builder run. -/
theorem claim_C7_witness :
    c7ExampleSpan.total_tokens = c7ExampleSpan.input_tokens + c7ExampleSpan.output_tokens ∧
    0 ≤ c7ExampleSpan.duration_ms ∧
    c7ExampleSpan.latency_ms = c7ExampleSpan.duration_ms ∧
    c7ExampleSpan.total_cost_usd = c7ExampleSpan.cost_usd ∧
    c7ExampleSpan.cost_usd = c7ExampleOptions.costUsd.getD
      (calculateCost c7ExampleSpan.provider c7ExampleSpan.model_id
        c7ExampleSpan.input_tokens c7ExampleSpan.output_tokens) ∧
    c7ExampleSpan.vendor = providerName c7ExampleSpan.provider :=
  claim_C7_finished_span_invariants c7ExampleOps (str "trace-0") (str "span-0") none
    c7ExampleOptions 0 5 (str "ts-start") (str "ts-end") false c7ExampleSpan []
    (by decide) rfl

end KalibrSDK
